import Mathlib

/-!
Verification of the `biomarket-cas` market-simulation engine against its
natural-language specification.

The Python sources under `src/backend/app` are shallowly embedded below.
Floating-point values are modelled as exact rationals (`ℚ`); the uniform
draws produced by `random.random()` are passed in as explicit parameters
in `[0, 1]`; probabilities of branch events are expressed as Lebesgue
measure of the corresponding subsets of the unit interval.
-/

/-- Market regime tags, from `app/models/regime.py`. -/
inductive Regime where
  | GROWTH
  | STAGNATION
  | CONTRACTION
  | CRISIS
  deriving DecidableEq, Repr

/-- Stock status, from `app/models/stock.py` (the strings `active` / `bankrupt`). -/
inductive Status where
  | active
  | bankrupt
  deriving DecidableEq, Repr

/-- Market-cap tier tags, the strings `MEGA_CAP` / `LARGE_CAP` / `MID_CAP` /
`SMALL_CAP` used throughout `app/engine/stock_price.py`. -/
inductive Tier where
  | MEGA_CAP
  | LARGE_CAP
  | MID_CAP
  | SMALL_CAP
  deriving DecidableEq, Repr

/-- Winner status, the strings `NORMAL` / `WINNER` of `app/models/stock.py`. -/
inductive WinnerStatus where
  | NORMAL
  | WINNER
  deriving DecidableEq, Repr

/-- Trading phase, the strings `TRADING` / `CLOSED` of `app/models/market_state.py`. -/
inductive Phase where
  | TRADING
  | CLOSED
  deriving DecidableEq, Repr

/-- `Stock` dataclass of `app/models/stock.py`.  Deques are modelled as lists
with the newest element last. -/
structure Stock where
  id : String
  ticker : String
  name : String
  sector : String
  sub_industry : String
  price : ℚ
  shares_outstanding : ℚ
  current_market_cap : ℚ
  volatility : ℚ
  value_score : ℚ
  metabolic_health : ℚ
  history : List ℚ
  status : Status
  market_cap_tier : Tier
  winner_status : WinnerStatus
  base_volatility : ℚ
  performance_tracker : List ℚ
  deriving DecidableEq, Repr

/-- `MarketState` dataclass of `app/models/market_state.py`. -/
structure MarketState where
  vix : ℚ
  interest_rate : ℚ
  phase : Phase
  deriving DecidableEq, Repr

/-- `rate_range` entries of the `REGIMES` table of `app/config.py`. -/
def rate_range : Regime → List ℚ
  | .GROWTH => [0, 1.5]
  | .STAGNATION => [1.5, 3.5]
  | .CONTRACTION => [3.5, 5.0]
  | .CRISIS => [4.0, 5.5]

/-- `vix_base` entries of the `REGIMES` table of `app/config.py`. -/
def vix_base : Regime → ℚ
  | .GROWTH => 15
  | .STAGNATION => 18
  | .CONTRACTION => 25
  | .CRISIS => 35

/-- `drift_multiplier` entries of the `REGIMES` table of `app/config.py`. -/
def drift_multiplier : Regime → ℚ
  | .GROWTH => 4.0
  | .STAGNATION => 0.1
  | .CONTRACTION => -0.3
  | .CRISIS => -0.8

/-- Interest-rate step of `SimulationEngine._update_macro_variables`
(`app/engine/simulation.py`): mean reversion towards the midpoint of the
regime's `rate_range`, plus uniform noise `(u - 0.5) * 0.02`; the source
applies no clamp. -/
def update_interest_rate (rate : ℚ) (ρ : Regime) (u : ℚ) : ℚ :=
  rate + (((rate_range ρ).sum / 2 - rate) * 0.05 + (u - 0.5) * 0.02)

/-- VIX spike of `SimulationEngine._update_macro_variables`: a single uniform
draw `u1` selects the branch (`u1 > 0.998` rare large spike, else `u1 > 0.99`
small spike, else none); `u2` is the uniform draw sizing the spike. -/
def spike_amount (u1 u2 : ℚ) : ℚ :=
  if u1 > 0.998 then u2 * 25 + 15
  else if u1 > 0.99 then u2 * 7 + 5
  else 0

/-- VIX step of `SimulationEngine._update_macro_variables`: decay towards the
regime's `vix_base`, spike, noise `(u3 - 0.5) * 1.5`, floored at 10. -/
def update_vix (vix : ℚ) (ρ : Regime) (u1 u2 u3 : ℚ) : ℚ :=
  let decay := (vix - vix_base ρ) * 0.15
  let noise := (u3 - 0.5) * 1.5
  max 10.0 (vix - decay + spike_amount u1 u2 + noise)

/-- The set of uniform draws on which the source takes the *large* VIX-spike
branch (`rand > 0.998` in `_update_macro_variables`). -/
def big_spike_set : Set ℝ := {u : ℝ | 0.998 < u}

/-- The set of uniform draws on which the source takes the *small* VIX-spike
branch: the `elif rand > 0.99` of `_update_macro_variables`, reached only when
the large-spike test `rand > 0.998` failed. -/
def small_spike_set : Set ℝ := {u : ℝ | ¬ 0.998 < u ∧ 0.99 < u}

lemma small_spike_set_eq : small_spike_set = Set.Ioc (0.99 : ℝ) 0.998 := by
  ext u
  simp only [small_spike_set, Set.mem_setOf_eq, Set.mem_Ioc, not_lt]
  tauto

lemma small_spike_volume :
    MeasureTheory.volume (small_spike_set ∩ Set.Icc 0 1) =
      ENNReal.ofReal 0.008 := by
  have hsub : small_spike_set ⊆ Set.Icc (0 : ℝ) 1 := by
    rw [small_spike_set_eq]
    intro u hu
    rcases hu with ⟨h1, h2⟩
    constructor <;> linarith
  rw [Set.inter_eq_self_of_subset_left hsub, small_spike_set_eq,
    Real.volume_Ioc]
  norm_num

lemma big_spike_volume :
    MeasureTheory.volume (big_spike_set ∩ Set.Icc 0 1) =
      ENNReal.ofReal 0.002 := by
  have h : big_spike_set ∩ Set.Icc 0 1 = Set.Ioc (0.998 : ℝ) 1 := by
    ext u
    simp only [big_spike_set, Set.mem_inter_iff, Set.mem_setOf_eq,
      Set.mem_Icc, Set.mem_Ioc]
    constructor
    · rintro ⟨h1, _, h3⟩; exact ⟨h1, h3⟩
    · rintro ⟨h1, h2⟩; refine ⟨h1, by linarith, h2⟩
  rw [h, Real.volume_Ioc]
  norm_num

/-- Claim C7: the per-tick interest-rate update is
`rate + 0.05 * (target - rate) + eps1` with `target` the midpoint of the
regime's rate range and `eps1` uniform on `[-0.01, 0.01]`; from any
non-negative rate the result is non-negative (every regime's target is at
least 0.75, so the absent clamp of the spec is a no-op on reachable states). -/
theorem c7_interest_rate (ρ : Regime) (rate u : ℚ)
    (hrate : 0 ≤ rate) (hu0 : 0 ≤ u) (hu1 : u ≤ 1) :
    update_interest_rate rate ρ u
      = rate + 0.05 * ((rate_range ρ).sum / 2 - rate) + (u - 0.5) * 0.02
    ∧ -0.01 ≤ (u - 0.5) * 0.02
    ∧ (u - 0.5) * 0.02 ≤ 0.01
    ∧ 0 ≤ update_interest_rate rate ρ u
    ∧ update_interest_rate rate ρ u = max 0 (update_interest_rate rate ρ u) := by
  have htarget : (0.75 : ℚ) ≤ (rate_range ρ).sum / 2 := by
    cases ρ <;> norm_num [rate_range]
  have hpos : 0 ≤ update_interest_rate rate ρ u := by
    unfold update_interest_rate
    nlinarith
  refine ⟨by unfold update_interest_rate; ring, by linarith, by linarith,
    hpos, ?_⟩
  exact (max_eq_right hpos).symm

/-- Witness for C7 at the initial market state (`interest_rate = 1.25`,
regime GROWTH, mid noise draw). -/
theorem c7_witness : 0 ≤ update_interest_rate 1.25 Regime.GROWTH 0.5 :=
  (c7_interest_rate Regime.GROWTH 1.25 0.5 (by norm_num) (by norm_num)
    (by norm_num)).2.2.2.1

/-- Claim C8 (amended): the VIX step is
`max 10 (vix - 0.15 * (vix - base) + spike + eps2)` with `eps2` uniform on
`[-0.75, 0.75]`; the spike is `Uniform(15, 40)` on a branch of probability
0.002 and `Uniform(5, 12)` on a branch of probability 0.008 (not 0.01: the
small-spike branch is the `elif rand > 0.99` left over after `rand > 0.998`);
the result is always at least 10. -/
theorem c8_vix_update :
    (∀ (vix : ℚ) (ρ : Regime) (u1 u2 u3 : ℚ),
      update_vix vix ρ u1 u2 u3
        = max 10 (vix - (vix - vix_base ρ) * 0.15 + spike_amount u1 u2
            + (u3 - 0.5) * 1.5)
      ∧ 10 ≤ update_vix vix ρ u1 u2 u3)
    ∧ MeasureTheory.volume (small_spike_set ∩ Set.Icc 0 1)
        = ENNReal.ofReal 0.008
    ∧ MeasureTheory.volume (big_spike_set ∩ Set.Icc 0 1)
        = ENNReal.ofReal 0.002 := by
  have hformula : ∀ (vix : ℚ) (ρ : Regime) (u1 u2 u3 : ℚ),
      update_vix vix ρ u1 u2 u3
        = max 10 (vix - (vix - vix_base ρ) * 0.15 + spike_amount u1 u2
            + (u3 - 0.5) * 1.5) := by
    intro vix ρ u1 u2 u3
    unfold update_vix
    norm_num
  refine ⟨fun vix ρ u1 u2 u3 => ⟨hformula vix ρ u1 u2 u3, ?_⟩,
    small_spike_volume, big_spike_volume⟩
  rw [hformula vix ρ u1 u2 u3]
  exact le_max_left _ _

/-- Claim C8, counterexample to the stated probability: the small-spike
branch fires on a set of draws of measure 0.008, not 0.01. -/
theorem c8_counterexample :
    MeasureTheory.volume (small_spike_set ∩ Set.Icc 0 1)
      ≠ ENNReal.ofReal 0.01 := by
  rw [small_spike_volume]
  intro h
  rw [ENNReal.ofReal_eq_ofReal_iff (by norm_num) (by norm_num)] at h
  norm_num at h

/-- Modelled from the spec: `get_market_cap_tier` is defined in
`app/config/loader.py`, which is absent from the sources (only its callers
are present).  Tier boundaries follow the spec's tier ranges and the
initialisation comments of `SimulationEngine._generate_initial_stocks`:
SMALL below $2B, MID $2B-$10B, LARGE $10B-$200B, MEGA above.  No claim
depends on the exact boundary values. -/
def get_market_cap_tier (cap_billions : ℚ) : Tier :=
  if cap_billions < 2 then Tier.SMALL_CAP
  else if cap_billions < 10 then Tier.MID_CAP
  else if cap_billions < 200 then Tier.LARGE_CAP
  else Tier.MEGA_CAP

/-- `TIER_VOLATILITY` table of `app/engine/stock_price.py` (annualised
volatility range per tier; the `.get` default `(0.30, 0.50)` is unreachable
because every tier tag is a key). -/
def tier_volatility_range : Tier → ℚ × ℚ
  | .MEGA_CAP => (0.15, 0.25)
  | .LARGE_CAP => (0.20, 0.35)
  | .MID_CAP => (0.30, 0.50)
  | .SMALL_CAP => (0.40, 0.70)

/-- `SQRT_TICKS_PER_YEAR` of `app/engine/stock_price.py`. -/
def SQRT_TICKS_PER_YEAR : ℚ := 85.4

/-- `BASE_TICK_DRIFT = BASE_ANNUAL_DRIFT / 7300` with `BASE_ANNUAL_DRIFT = 0.0`
(`app/engine/stock_price.py`). -/
def BASE_TICK_DRIFT : ℚ := 0.0 / 7300

/-- Size-advantage multipliers of `StockPriceEngine.calculate_health_drift`
(the inline dict; `.get` default 1.0 is unreachable for the four tier tags). -/
def size_mult : Tier → ℚ
  | .MEGA_CAP => 1.2
  | .LARGE_CAP => 1.1
  | .MID_CAP => 1.0
  | .SMALL_CAP => 0.8

/-- The metabolic-health mutation performed inside
`StockPriceEngine.calculate_health_drift`:
`health <- max(0.2, min(1.2, health + (vix_factor + rate_factor) * 0.001))`
with `vix_factor = (20 - vix)/100` and `rate_factor = -rate/200`. -/
def health_after_condition (s : Stock) (ms : MarketState) : ℚ :=
  let vix_factor := (20 - ms.vix) / 100
  let rate_factor := -ms.interest_rate / 200
  let condition := vix_factor + rate_factor
  let health_change := condition * 0.001
  max 0.2 (min 1.2 (s.metabolic_health + health_change))

/-- Return value of `StockPriceEngine.calculate_health_drift`: the
health-based drift `(health - 0.6) * 0.00002 * size_mult`, computed from the
freshly mutated health. -/
def calculate_health_drift (s : Stock) (ms : MarketState) : ℚ :=
  (health_after_condition s ms - 0.6) * 0.00002 * size_mult s.market_cap_tier

/-- `StockPriceEngine.calculate_tick_volatility`: tier-based annualised
volatility, VIX-amplified (floored at a 0.5 factor), converted to per-tick
volatility. -/
def calculate_tick_volatility (s : Stock) (ms : MarketState) : ℚ :=
  let range := tier_volatility_range s.market_cap_tier
  let annual_vol := range.1 + s.volatility * (range.2 - range.1)
  let vix_mult := 1.0 + (ms.vix - 15) / 40
  let amplified := annual_vol * max 0.5 vix_mult
  amplified / SQRT_TICKS_PER_YEAR

/-- One active stock's update in `StockPriceEngine.update_all`.  The source
draws `z = random.gauss(0, 1)` and computes
`change = math.exp(drift + tick_vol * z)`, then uses only `change`; since
`exp` is transcendental, `change` — which ranges over all positive rationals
as `z` ranges over the reals (the per-tick volatility is strictly positive,
see `c2_price_step`) — is taken as the primitive random input.  `brand` is
the uniform draw of the conditional bankruptcy test `random.random() < 0.0005`.
The price, market cap, history, performance tracker and tier are updated
unconditionally, after the bankruptcy test. -/
def update_stock (s : Stock) (ms : MarketState) (change brand : ℚ) : Stock :=
  let health2 := health_after_condition s ms
  let new_price := max 0.01 (s.price * change)
  { s with
    metabolic_health := health2
    status :=
      if health2 < 0.3 ∧ new_price < 2.0 ∧ brand < 0.0005 then Status.bankrupt
      else s.status
    price := new_price
    current_market_cap := new_price * s.shares_outstanding
    history := (s.history ++ [new_price]).drop
      ((s.history ++ [new_price]).length - 60)
    performance_tracker := (s.performance_tracker ++ [new_price]).drop
      ((s.performance_tracker ++ [new_price]).length - 1460)
    market_cap_tier :=
      get_market_cap_tier (new_price * s.shares_outstanding / 1000000000) }

/-- `StockPriceEngine.update_all` over the stock list: bankrupt stocks are
skipped (and consume no randomness); each active stock consumes one
`(change, brand)` pair from the stream. -/
def update_all (ms : MarketState) : List Stock → (ℕ → ℚ × ℚ) → List Stock
  | [], _ => []
  | s :: rest, r =>
    if s.status = Status.bankrupt then s :: update_all ms rest r
    else update_stock s ms (r 0).1 (r 0).2
      :: update_all ms rest (fun n => r (n + 1))

/-- Follows the spec's words (§4.3 step 4), for comparison with the
source-derived drift:
`drift = (value_score * 2e-5) * C.drift_multiplier + (health - 0.5) * 1e-5`. -/
def spec_drift (value_score health : ℚ) (ρ : Regime) : ℚ :=
  value_score * 0.00002 * drift_multiplier ρ + (health - 0.5) * 0.00001

/-- A concrete mid-cap stock used to separate the source's drift from the
spec's drift formula. -/
def c2_stock : Stock :=
  { id := "stock-0", ticker := "TAAA", name := "Cloud Corp",
    sector := "Technology", sub_industry := "Cloud",
    price := 100, shares_outstanding := 50000000,
    current_market_cap := 5000000000,
    volatility := 0.5, value_score := 0.5, metabolic_health := 0.6,
    history := List.replicate 60 100, status := Status.active,
    market_cap_tier := Tier.MID_CAP, winner_status := WinnerStatus.NORMAL,
    base_volatility := 0.5, performance_tracker := [100] }

/-- A market state (VIX 20, rate 0) under which the health mutation is the
identity, so the pre- and post-update healths agree. -/
def c2_market : MarketState :=
  { vix := 20, interest_rate := 0, phase := Phase.TRADING }

/-- Claim C2, counterexample: for the concrete stock `c2_stock` the source's
total drift is 0 while the spec's health-driven formula gives 4.1e-5, and a
Gaussian draw `z = 10` produces a volatility term above the spec's 0.015
clamp, so the source's price step does not follow the claimed formula. -/
theorem c2_counterexample :
    BASE_TICK_DRIFT + calculate_health_drift c2_stock c2_market = 0
    ∧ spec_drift c2_stock.value_score c2_stock.metabolic_health Regime.GROWTH
        = 0.000041
    ∧ (0.000041 : ℚ) ≠ 0
    ∧ 0.015 < calculate_tick_volatility c2_stock c2_market * 10 := by
  refine ⟨?_, ?_, by norm_num, ?_⟩ <;>
    norm_num [BASE_TICK_DRIFT, calculate_health_drift, health_after_condition,
      spec_drift, drift_multiplier, calculate_tick_volatility,
      tier_volatility_range, SQRT_TICKS_PER_YEAR, size_mult, c2_stock,
      c2_market]

/-- Claim C2 (amended): for every stock the new price is
`max(0.01, price * change)` where `change = exp(drift + tick_vol * z)` for a
standard-normal `z`; the drift is `(health2 - 0.6) * 2e-5 * size_mult(tier)`
(health2 being the condition-updated, clamped health; the base drift is 0),
the per-tick volatility is
`(tier_min + volatility * (tier_max - tier_min)) * max(0.5, 1 + (vix-15)/40) / 85.4`,
and it is strictly positive whenever `volatility >= 0`, so every positive
`change` is realised by exactly one Gaussian draw; no clamp is applied to the
volatility term. -/
theorem c2_price_step (s : Stock) (ms : MarketState) (change brand : ℚ)
    (hvol : 0 ≤ s.volatility) :
    (update_stock s ms change brand).price = max 0.01 (s.price * change)
    ∧ BASE_TICK_DRIFT + calculate_health_drift s ms
        = (health_after_condition s ms - 0.6) * 0.00002
            * size_mult s.market_cap_tier
    ∧ calculate_tick_volatility s ms
        = ((tier_volatility_range s.market_cap_tier).1
            + s.volatility * ((tier_volatility_range s.market_cap_tier).2
                - (tier_volatility_range s.market_cap_tier).1))
          * max 0.5 (1 + (ms.vix - 15) / 40) / 85.4
    ∧ 0 < calculate_tick_volatility s ms := by
  refine ⟨rfl, by unfold BASE_TICK_DRIFT calculate_health_drift; ring, ?_, ?_⟩
  · unfold calculate_tick_volatility SQRT_TICKS_PER_YEAR
    norm_num
  · unfold calculate_tick_volatility SQRT_TICKS_PER_YEAR
    have hmax : (0.5 : ℚ) ≤ max 0.5 (1.0 + (ms.vix - 15) / 40) :=
      le_max_left _ _
    have hannual : (0.15 : ℚ) ≤ (tier_volatility_range s.market_cap_tier).1
        + s.volatility * ((tier_volatility_range s.market_cap_tier).2
          - (tier_volatility_range s.market_cap_tier).1) := by
      rcases s.market_cap_tier <;> simp [tier_volatility_range] <;> nlinarith
    positivity

/-- An active small-cap stock near distress, used for the bankruptcy
counterexample (VIX 20 and rate 0 leave its health at 0.25). -/
def c3_stock : Stock :=
  { id := "stock-1", ticker := "MAAA", name := "Mining Corp",
    sector := "Materials", sub_industry := "Mining",
    price := 1, shares_outstanding := 300000000,
    current_market_cap := 300000000,
    volatility := 0.5, value_score := 0.3, metabolic_health := 0.25,
    history := List.replicate 60 1, status := Status.active,
    market_cap_tier := Tier.SMALL_CAP, winner_status := WinnerStatus.NORMAL,
    base_volatility := 0.5, performance_tracker := [1] }

/-- The market state used for the bankruptcy counterexample. -/
def c3_market : MarketState :=
  { vix := 20, interest_rate := 0, phase := Phase.TRADING }

/-- Claim C3, counterexample: with health 0.25 (not <= 0.05), new price 1
(not < 0.25) and bankruptcy draw 0.0001 < 0.0005, the source marks the stock
bankrupt and leaves its price at 1 — so bankruptcy does not happen "exactly
when price < 0.25 and health <= 0.05", and a bankrupt stock's price is not 0. -/
theorem c3_counterexample :
    (update_stock c3_stock c3_market 1 0.0001).status = Status.bankrupt
    ∧ 0.25 < (update_stock c3_stock c3_market 1 0.0001).price
    ∧ (update_stock c3_stock c3_market 1 0.0001).price ≠ 0 := by
  refine ⟨?_, ?_, ?_⟩ <;>
    norm_num [update_stock, health_after_condition, c3_stock, c3_market]

/-- Claim C3 (amended): a stock processed by `update_all` is marked bankrupt
exactly when its post-update health is below 0.3, its new price is below 2.0
and an independent uniform draw falls below 0.0005 (or it was already
bankrupt); the commit is never skipped — price, market cap and history are
updated regardless — so the price after the step is always at least 0.01,
also for a stock that just went bankrupt. -/
theorem c3_bankruptcy (s : Stock) (ms : MarketState) (change brand : ℚ) :
    ((update_stock s ms change brand).status = Status.bankrupt
      ↔ ((health_after_condition s ms < 0.3 ∧ max 0.01 (s.price * change) < 2.0
          ∧ brand < 0.0005)
        ∨ s.status = Status.bankrupt))
    ∧ (update_stock s ms change brand).price = max 0.01 (s.price * change)
    ∧ (update_stock s ms change brand).current_market_cap
        = max 0.01 (s.price * change) * s.shares_outstanding
    ∧ (update_stock s ms change brand).history
        = (s.history ++ [max 0.01 (s.price * change)]).drop
            ((s.history ++ [max 0.01 (s.price * change)]).length - 60)
    ∧ 0.01 ≤ (update_stock s ms change brand).price := by
  refine ⟨?_, rfl, rfl, rfl, le_max_left _ _⟩
  unfold update_stock
  dsimp only
  split
  · simp_all
  · simp_all

/-- `SimulationEngine._apply_gap_pricing`, per stock: a uniform draw `udir`
fixes the direction (`+1` when `udir > 0.5`, else `-1`), a uniform draw
`umag` sizes the magnitude `umag * 0.015 + 0.005`, and the gapped price is
floored at 0.1.  The history buffer is untouched. -/
def apply_gap_stock (s : Stock) (udir umag : ℚ) : Stock :=
  let gap_direction : ℚ := if udir > 0.5 then 1 else -1
  let gap_magnitude := (umag * 0.015 + 0.005) * gap_direction
  { s with price := max 0.1 (s.price * (1 + gap_magnitude)) }

/-- `SimulationEngine._apply_gap_pricing` over the list: bankrupt stocks are
skipped and consume no randomness. -/
def apply_gap_pricing : List Stock → (ℕ → ℚ × ℚ) → List Stock
  | [], _ => []
  | s :: rest, r =>
    if s.status = Status.bankrupt then s :: apply_gap_pricing rest r
    else apply_gap_stock s (r 0).1 (r 0).2
      :: apply_gap_pricing rest (fun n => r (n + 1))

/-- An active penny stock (price 0.05) used for the gap counterexample. -/
def c9_stock : Stock :=
  { id := "stock-2", ticker := "EAAA", name := "E&P Corp",
    sector := "Energy", sub_industry := "E&P",
    price := 0.05, shares_outstanding := 1000000,
    current_market_cap := 50000,
    volatility := 0.5, value_score := 0.2, metabolic_health := 0.5,
    history := List.replicate 60 0.05, status := Status.active,
    market_cap_tier := Tier.SMALL_CAP, winner_status := WinnerStatus.NORMAL,
    base_volatility := 0.5, performance_tracker := [0.05] }

/-- Claim C9, counterexample: an active stock priced 0.05 gapped downwards
(direction draw 0.3, magnitude draw 0) hits the 0.1 floor, so its post-gap
price is twice the pre-gap price — a factor outside
`[0.98, 0.995] ∪ [1.005, 1.02]`. -/
theorem c9_counterexample :
    c9_stock.status = Status.active
    ∧ (apply_gap_stock c9_stock 0.3 0).price = 0.1
    ∧ ¬(0.98 * c9_stock.price ≤ (apply_gap_stock c9_stock 0.3 0).price
        ∧ (apply_gap_stock c9_stock 0.3 0).price ≤ 0.995 * c9_stock.price)
    ∧ ¬(1.005 * c9_stock.price ≤ (apply_gap_stock c9_stock 0.3 0).price
        ∧ (apply_gap_stock c9_stock 0.3 0).price ≤ 1.02 * c9_stock.price) := by
  refine ⟨rfl, ?_, ?_, ?_⟩ <;> norm_num [apply_gap_stock, c9_stock]

/-- Claim C9 (amended): on a CLOSED→TRADING transition each active stock's
price becomes `max(0.1, price * (1 + direction * magnitude))` with
`magnitude ∈ [0.005, 0.02]`; whenever the 0.1 floor does not bind (in
particular whenever `0.98 * price ≥ 0.1`), the post-gap price is a factor in
`[0.98, 0.995] ∪ [1.005, 1.02]` of the pre-gap price; the history buffer is
never rewritten by the gap. -/
theorem c9_gap_bounds (s : Stock) (udir umag : ℚ)
    (h0 : 0 ≤ umag) (h1 : umag ≤ 1) (hp : 0.1 ≤ 0.98 * s.price) :
    ((0.98 * s.price ≤ (apply_gap_stock s udir umag).price
        ∧ (apply_gap_stock s udir umag).price ≤ 0.995 * s.price)
      ∨ (1.005 * s.price ≤ (apply_gap_stock s udir umag).price
        ∧ (apply_gap_stock s udir umag).price ≤ 1.02 * s.price))
    ∧ (apply_gap_stock s udir umag).history = s.history := by
  have hppos : 0 < s.price := by nlinarith
  refine ⟨?_, rfl⟩
  unfold apply_gap_stock
  dsimp only
  split
  · -- upward gap: factor 1 + (0.015 * umag + 0.005) ∈ [1.005, 1.02]
    right
    have hfloor : (0.1 : ℚ) ≤ s.price * (1 + (umag * 0.015 + 0.005) * 1) := by
      nlinarith
    rw [max_eq_right hfloor]
    constructor <;> nlinarith
  · -- downward gap: factor 1 - (0.015 * umag + 0.005) ∈ [0.98, 0.995]
    left
    have hfloor : (0.1 : ℚ) ≤ s.price * (1 + (umag * 0.015 + 0.005) * (-1)) := by
      nlinarith
    rw [max_eq_right hfloor]
    constructor <;> nlinarith

/-- Witness for C9 at a normally-priced stock: an upward gap of the maximal
magnitude lands exactly on the 1.02 factor. -/
theorem c9_witness :
    ((0.98 * c2_stock.price ≤ (apply_gap_stock c2_stock 0.7 1).price
        ∧ (apply_gap_stock c2_stock 0.7 1).price ≤ 0.995 * c2_stock.price)
      ∨ (1.005 * c2_stock.price ≤ (apply_gap_stock c2_stock 0.7 1).price
        ∧ (apply_gap_stock c2_stock 0.7 1).price ≤ 1.02 * c2_stock.price))
    ∧ (apply_gap_stock c2_stock 0.7 1).history = c2_stock.history :=
  c9_gap_bounds c2_stock 0.7 1 (by norm_num) (by norm_num)
    (by norm_num [c2_stock])

/-- `SimulationEngine._calculate_period_return`: the market-cap history is a
list with the newest sample last; Python's `history[-1]` and
`history[-(period+1)]` become `getD (length - 1)` and
`getD (length - (period + 1))` (both guarded by `length > period`). -/
def calculate_period_return (period : ℕ) (hist : List ℚ) : Option ℚ :=
  if hist.length ≤ period then none
  else
    let current_cap := hist.getD (hist.length - 1) 0
    let past_cap := hist.getD (hist.length - (period + 1)) 0
    if past_cap = 0 then none
    else some ((current_cap - past_cap) / past_cap * 100)

/-- A 61-sample market-cap history whose sample 60 ticks back is 0 (as after
a stretch with no active stocks). -/
def c10_hist : List ℚ := 0 :: List.replicate 60 5

/-- Claim C10, counterexample: with 61 samples the claim says `return60` is
non-null, but the source also returns null when the sample 60 ticks back is
0. -/
theorem c10_counterexample :
    calculate_period_return 60 c10_hist = none
    ∧ 60 + 1 ≤ c10_hist.length := by
  constructor
  · norm_num [calculate_period_return, c10_hist]
  · norm_num [c10_hist]

/-- Claim C10 (amended): for every period `N`, the period return is null iff
the history holds fewer than `N + 1` samples *or* the sample `N` ticks back
is 0; otherwise it equals `100 * (last - past) / past`. -/
theorem c10_period_return (period : ℕ) (hist : List ℚ) :
    (calculate_period_return period hist = none
      ↔ hist.length < period + 1
        ∨ hist.getD (hist.length - (period + 1)) 0 = 0)
    ∧ (period + 1 ≤ hist.length →
        hist.getD (hist.length - (period + 1)) 0 ≠ 0 →
        calculate_period_return period hist
          = some (100 * (hist.getD (hist.length - 1) 0
                - hist.getD (hist.length - (period + 1)) 0)
              / hist.getD (hist.length - (period + 1)) 0)) := by
  constructor
  · unfold calculate_period_return
    split
    · simp only [true_iff]
      left
      omega
    · dsimp only
      split
      · simp only [true_iff]
        right
        assumption
      · simp only [reduceCtorEq, false_iff, not_or]
        constructor
        · omega
        · assumption
  · intro hlen hpast
    unfold calculate_period_return
    rw [if_neg (by omega), if_neg hpast]
    congr 1
    field_simp
    ring

/-- Witness for C10: a 61-sample history rising from 1 to 2 yields
`return60 = 100`. -/
theorem c10_witness :
    calculate_period_return 60 (List.replicate 60 1 ++ [2]) = some 100 := by
  have h := (c10_period_return 60 (List.replicate 60 1 ++ [2])).2
    (by simp) (by decide)
  have h1 : (List.replicate 60 (1 : ℚ) ++ [2]).getD
      ((List.replicate 60 (1 : ℚ) ++ [2]).length - 1) 0 = 2 := by decide
  have h2 : (List.replicate 60 (1 : ℚ) ++ [2]).getD
      ((List.replicate 60 (1 : ℚ) ++ [2]).length - (60 + 1)) 0 = 1 := by decide
  rw [h, h1, h2]
  norm_num

/-- Mutable counters of `IPOManager` (`app/engine/ipo_manager.py`). -/
structure IPOState where
  stock_id_counter : ℕ
  ticks_since_last_check : ℕ
  deriving DecidableEq, Repr

/-- The random inputs of one `IPOManager.process` call.  `u` is the draw of
`random.random() < 0.3`; the sector / sub-industry / name-suffix choices of
`random.choice` and the ticker of `generate_sector_ticker` are taken as
primitive string inputs; `uP` and `uS` are the uniform draws for the IPO
price and the shares numerator. -/
structure IPORand where
  u : ℚ
  sector : String
  sub : String
  name_choice : String
  ticker : String
  uP : ℚ
  uS : ℚ
  deriving DecidableEq, Repr

/-- The event dict returned by `IPOManager.process`. -/
structure IPOEvent where
  ticker : String
  sector : String
  sub_industry : String
  emergency : Bool
  deriving DecidableEq, Repr

/-- `active_count` of `IPOManager.process`. -/
def active_count (stocks : List Stock) : ℕ :=
  (stocks.filter (fun s => s.status = Status.active)).length

/-- `bankrupt_count` of `IPOManager.process`. -/
def bankrupt_count (stocks : List Stock) : ℕ :=
  (stocks.filter (fun s => s.status = Status.bankrupt)).length

/-- The `Stock(...)` constructor call of `IPOManager.process` (identical in
the replacement and the growth branch): price `80 + uP * 40`, shares
`(50e9 + uS * 50e9) / price`, market cap fixed at `50e9`, history pre-filled
with the IPO price; the dataclass defaults supply the tier (`SMALL_CAP`),
winner status, base volatility and an *empty* performance tracker. -/
def ipo_new_stock (counter : ℕ) (r : IPORand) : Stock :=
  let new_price := 80 + r.uP * 40
  { id := "stock-" ++ toString counter,
    ticker := r.ticker,
    name := r.sub ++ " " ++ r.name_choice,
    sector := r.sector,
    sub_industry := r.sub,
    price := new_price,
    shares_outstanding := (50000000000 + r.uS * 50000000000) / new_price,
    current_market_cap := 50000000000,
    volatility := 0.6, value_score := 0.4, metabolic_health := 1.0,
    history := List.replicate 60 new_price,
    status := Status.active,
    market_cap_tier := Tier.SMALL_CAP,
    winner_status := WinnerStatus.NORMAL,
    base_volatility := 0.35,
    performance_tracker := [] }

/-- The `for i, stock in enumerate(stocks)` loop of `IPOManager.process`:
replace the first bankrupt entry in place; `none` when no entry is bankrupt
(then the source's loop falls through and the call returns `None`). -/
def replace_first_bankrupt (new : Stock) : List Stock → Option (List Stock)
  | [] => none
  | s :: rest =>
    if s.status = Status.bankrupt then some (new :: rest)
    else (replace_first_bankrupt new rest).map (s :: ·)

/-- `IPOManager.process` (the two-parameter method of
`app/engine/ipo_manager.py`): runs once per 20 ticks; emergency mode when
fewer than 10% of the stocks are active; admission during GROWTH with
probability 0.3 (or always in emergency mode); a bankrupt entry, if any, is
replaced in place, otherwise a new stock is appended while the list is
shorter than 100. -/
def ipo_process (st : IPOState) (stocks : List Stock) (regime : Regime)
    (r : IPORand) : IPOState × List Stock × Option IPOEvent :=
  let tsc := st.ticks_since_last_check + 1
  if tsc < 20 then ({ st with ticks_since_last_check := tsc }, stocks, none)
  else
    let st1 : IPOState := { st with ticks_since_last_check := 0 }
    let emergency : Bool :=
      decide ((active_count stocks : ℚ) < (stocks.length : ℚ) * 0.1)
    if regime = Regime.GROWTH ∨ emergency = true then
      if r.u < 0.3 ∨ emergency = true then
        if 0 < bankrupt_count stocks then
          match replace_first_bankrupt
              (ipo_new_stock st1.stock_id_counter r) stocks with
          | some stocks2 =>
            ({ st1 with stock_id_counter := st1.stock_id_counter + 1 },
             stocks2,
             some { ticker := r.ticker, sector := r.sector,
                    sub_industry := r.sub, emergency := emergency })
          | none => (st1, stocks, none)
        else if stocks.length < 100 then
          ({ st1 with stock_id_counter := st1.stock_id_counter + 1 },
           stocks ++ [ipo_new_stock st1.stock_id_counter r],
           some { ticker := r.ticker, sector := r.sector,
                  sub_industry := r.sub, emergency := false })
        else (st1, stocks, none)
      else (st1, stocks, none)
    else (st1, stocks, none)

lemma replace_first_bankrupt_length (new : Stock) :
    ∀ (l l2 : List Stock), replace_first_bankrupt new l = some l2 →
      l2.length = l.length := by
  intro l
  induction l with
  | nil => intro l2 h; simp [replace_first_bankrupt] at h
  | cons s rest ih =>
    intro l2 h
    unfold replace_first_bankrupt at h
    split at h
    · cases h
      simp
    · rcases Option.map_eq_some'.mp h with ⟨l3, h3, rfl⟩
      simp [ih l3 h3]

/-- A one-element stock list holding a single bankrupt tombstone (price 0.9,
health 0.2), used by the IPO counterexamples. -/
def c45_stocks : List Stock :=
  [{ id := "stock-3", ticker := "FAAA", name := "Banks Corp",
     sector := "Financials", sub_industry := "Banks",
     price := 0.9, shares_outstanding := 1000000,
     current_market_cap := 900000,
     volatility := 0.5, value_score := 0.2, metabolic_health := 0.2,
     history := List.replicate 60 0.9, status := Status.bankrupt,
     market_cap_tier := Tier.SMALL_CAP, winner_status := WinnerStatus.NORMAL,
     base_volatility := 0.5, performance_tracker := [0.9] }]

/-- Random inputs making the admission draw succeed. -/
def c4_rand : IPORand :=
  { u := 0.1, sector := "Technology", sub := "SaaS", name_choice := "Inc",
    ticker := "TAAB", uP := 0.5, uS := 0.5 }

/-- Random inputs for the C5 counterexample (admission draw 0.2 < 0.3). -/
def c5_rand : IPORand :=
  { u := 0.2, sector := "Consumer", sub := "Retail", name_choice := "Corp",
    ticker := "CAAA", uP := 0.25, uS := 0.75 }


lemma ipo_none_of_gating (st : IPOState) (stocks : List Stock)
    (regime : Regime) (r : IPORand) (hreg : regime ≠ Regime.GROWTH)
    (hem : ¬ (active_count stocks : ℚ) < (stocks.length : ℚ) * 0.1) :
    (ipo_process st stocks regime r).2.2 = none := by
  unfold ipo_process
  dsimp only
  split
  · rfl
  · have hcond : ¬(regime = Regime.GROWTH
        ∨ decide ((active_count stocks : ℚ) < (stocks.length : ℚ) * 0.1)
            = true) := by
      rintro (h | h)
      · exact hreg h
      · exact hem (of_decide_eq_true h)
    rw [if_neg hcond]

/-- Claim C4, counterexample: with no active stock the emergency failsafe
admits an IPO although the regime is CRISIS, so "no IPO when regime ≠ GROWTH"
is false (the source consults no VIX at all — `process` does not even receive
the market state — and replacement IPOs are not bounded by any stock count). -/
theorem c4_counterexample :
    (ipo_process ⟨0, 19⟩ c45_stocks Regime.CRISIS c4_rand).2.2 ≠ none
    ∧ Regime.CRISIS ≠ Regime.GROWTH := by
  constructor
  · simp only [ipo_process, c45_stocks, c4_rand, active_count, bankrupt_count,
      replace_first_bankrupt, List.filter_cons, List.filter_nil,
      reduceCtorEq, if_false, reduceIte]
    norm_num
    exact fun h => Option.noConfusion h
  · decide

/-- Claim C4 (amended): `IPOManager.process` admits an IPO only when the
regime is GROWTH or the emergency failsafe fires (fewer than 10% of the
stocks active); it never consults the VIX, and the only stock-count bound is
`len(stocks) < 100` on the growth (append) branch. -/
theorem c4_ipo_gating (st : IPOState) (stocks : List Stock) (regime : Regime)
    (r : IPORand)
    (h : (ipo_process st stocks regime r).2.2 ≠ none) :
    regime = Regime.GROWTH
    ∨ (active_count stocks : ℚ) < (stocks.length : ℚ) * 0.1 := by
  by_cases hreg : regime = Regime.GROWTH
  · exact Or.inl hreg
  · by_cases hem : (active_count stocks : ℚ) < (stocks.length : ℚ) * 0.1
    · exact Or.inr hem
    · exact absurd (ipo_none_of_gating st stocks regime r hreg hem) h

/-- Witness for C4: in GROWTH, replacing the tombstone of `c45_stocks`
produces an event, and the gating disjunction holds there. -/
theorem c4_witness :
    Regime.GROWTH = Regime.GROWTH
    ∨ (active_count c45_stocks : ℚ) < (c45_stocks.length : ℚ) * 0.1 :=
  c4_ipo_gating ⟨0, 19⟩ c45_stocks Regime.GROWTH c4_rand (by
    simp only [ipo_process, c45_stocks, c4_rand, active_count, bankrupt_count,
      replace_first_bankrupt, List.filter_cons, List.filter_nil,
      reduceCtorEq, if_false, reduceIte]
    norm_num
    exact fun h => Option.noConfusion h)

/-- Claim C5, counterexample: an IPO *does* replace the bankrupt tombstone in
place — the list keeps its length and its only entry turns from bankrupt to
active, so the list does not grow by appending and the tombstone is not
retained. -/
theorem c5_counterexample :
    (ipo_process ⟨0, 19⟩ c45_stocks Regime.GROWTH c5_rand).2.1.map
        Stock.status = [Status.active]
    ∧ c45_stocks.map Stock.status = [Status.bankrupt]
    ∧ (ipo_process ⟨0, 19⟩ c45_stocks Regime.GROWTH c5_rand).2.1.length
        = c45_stocks.length
    ∧ (ipo_process ⟨0, 19⟩ c45_stocks Regime.GROWTH c5_rand).2.2 ≠ none := by
  refine ⟨?_, by simp [c45_stocks], ?_, ?_⟩
  · simp only [ipo_process, c45_stocks, c5_rand, active_count, bankrupt_count,
      replace_first_bankrupt, ipo_new_stock, List.filter_cons, List.filter_nil,
      reduceCtorEq, if_false, reduceIte]
    norm_num
  · simp only [ipo_process, c45_stocks, c5_rand, active_count, bankrupt_count,
      replace_first_bankrupt, ipo_new_stock, List.filter_cons, List.filter_nil,
      reduceCtorEq, if_false, reduceIte]
    norm_num
  · simp only [ipo_process, c45_stocks, c5_rand, active_count, bankrupt_count,
      replace_first_bankrupt, ipo_new_stock, List.filter_cons, List.filter_nil,
      reduceCtorEq, if_false, reduceIte]
    norm_num
    exact fun h => Option.noConfusion h

/-- Claim C5 (amended): `IPOManager.process` replaces a bankrupt entry in
place whenever one exists (keeping the list length) and appends only when no
entry is bankrupt; in every case the list never shrinks, so the stock count
stays at least the initial count. -/
theorem c5_list_growth (st : IPOState) (stocks : List Stock)
    (regime : Regime) (r : IPORand) :
    stocks.length ≤ (ipo_process st stocks regime r).2.1.length
    ∧ (0 < bankrupt_count stocks →
        (ipo_process st stocks regime r).2.1.length = stocks.length) := by
  unfold ipo_process
  dsimp only
  by_cases h20 : st.ticks_since_last_check + 1 < 20
  · rw [if_pos h20]
    exact ⟨le_refl _, fun _ => rfl⟩
  · rw [if_neg h20]
    by_cases hgate : regime = Regime.GROWTH
        ∨ decide ((active_count stocks : ℚ) < (stocks.length : ℚ) * 0.1)
          = true
    · rw [if_pos hgate]
      by_cases hadm : r.u < 0.3
          ∨ decide ((active_count stocks : ℚ) < (stocks.length : ℚ) * 0.1)
            = true
      · rw [if_pos hadm]
        by_cases hb : 0 < bankrupt_count stocks
        · rw [if_pos hb]
          cases hrep : replace_first_bankrupt
              (ipo_new_stock st.stock_id_counter r) stocks with
          | none =>
            exact ⟨le_refl _, fun _ => rfl⟩
          | some stocks2 =>
            have hlen := replace_first_bankrupt_length _ _ _ hrep
            exact ⟨le_of_eq hlen.symm, fun _ => hlen⟩
        · rw [if_neg hb]
          by_cases h100 : stocks.length < 100
          · rw [if_pos h100]
            refine ⟨?_, fun hbb => absurd hbb hb⟩
            simp
          · rw [if_neg h100]
            exact ⟨le_refl _, fun _ => rfl⟩
      · rw [if_neg hadm]
        exact ⟨le_refl _, fun _ => rfl⟩
    · rw [if_neg hgate]
      exact ⟨le_refl _, fun _ => rfl⟩

/-- Witness for C5: replacing the tombstone of `c45_stocks` keeps the list
length. -/
theorem c5_witness :
    (ipo_process ⟨0, 19⟩ c45_stocks Regime.GROWTH c4_rand).2.1.length
      = c45_stocks.length :=
  (c5_list_growth ⟨0, 19⟩ c45_stocks Regime.GROWTH c4_rand).2 (by decide)

/-- Witness for C2 (amended): the per-tick volatility of the concrete
mid-cap stock is strictly positive. -/
theorem c2_witness : 0 < calculate_tick_volatility c2_stock c2_market :=
  (c2_price_step c2_stock c2_market 1 0.5 (by norm_num [c2_stock])).2.2.2

/-- Claim C6: the stock admitted by `IPOManager.process` with price draw 0.5
(price $100) and shares draw 0.5 has `price * shares_outstanding = 75e9` but
`current_market_cap = 50e9` — a relative error of 1/3, far above 1e-6.  The
constructor hard-codes the market cap at `50e9` while drawing the shares
numerator uniformly from `[50e9, 100e9)`. -/
theorem c6_ipo_market_cap :
    (ipo_new_stock 0 c4_rand).price
        * (ipo_new_stock 0 c4_rand).shares_outstanding = 75000000000
    ∧ (ipo_new_stock 0 c4_rand).current_market_cap = 50000000000
    ∧ 0.000001
        < |(ipo_new_stock 0 c4_rand).current_market_cap
            - (ipo_new_stock 0 c4_rand).price
              * (ipo_new_stock 0 c4_rand).shares_outstanding|
          / ((ipo_new_stock 0 c4_rand).price
              * (ipo_new_stock 0 c4_rand).shares_outstanding) := by
  refine ⟨?_, rfl, ?_⟩ <;> norm_num [ipo_new_stock, c4_rand]

/-- `REGIME_TRANSITIONS` rows of `app/config.py`, in dict insertion order
(the order the source's cumulative walk visits them). -/
def regime_transition_row : Regime → List (Regime × ℚ)
  | .GROWTH =>
      [(.GROWTH, 0.994), (.STAGNATION, 0.004), (.CONTRACTION, 0.002),
       (.CRISIS, 0.0)]
  | .STAGNATION =>
      [(.GROWTH, 0.002), (.STAGNATION, 0.991), (.CONTRACTION, 0.005),
       (.CRISIS, 0.002)]
  | .CONTRACTION =>
      [(.GROWTH, 0.004), (.STAGNATION, 0.004), (.CONTRACTION, 0.989),
       (.CRISIS, 0.003)]
  | .CRISIS =>
      [(.GROWTH, 0.002), (.STAGNATION, 0.006), (.CONTRACTION, 0.002),
       (.CRISIS, 0.990)]

/-- Mutable counters of `RegimeManager` (`app/engine/regime_manager.py`). -/
structure RegimeState where
  current : Regime
  ticks_in_regime : ℕ
  ticks_since_last_check : ℕ
  deriving DecidableEq, Repr

/-- The cumulative-probability walk of `RegimeManager.update`: commit to the
first row entry whose cumulative mass exceeds the draw; `some r` when this
entry differs from the current regime, `none` otherwise (the source then
breaks, or falls off the row). -/
def regime_walk (current : Regime) (rand : ℚ) :
    ℚ → List (Regime × ℚ) → Option Regime
  | _, [] => none
  | cumulative, (next, p) :: rest =>
    let c2 := cumulative + p
    if rand < c2 then (if next ≠ current then some next else none)
    else regime_walk current rand c2 rest

/-- `RegimeManager.update`: increments both counters every tick, and walks
the transition row only every 5th tick. -/
def regime_update (rs : RegimeState) (rand : ℚ) : RegimeState :=
  let rs1 : RegimeState :=
    { rs with ticks_since_last_check := rs.ticks_since_last_check + 1,
              ticks_in_regime := rs.ticks_in_regime + 1 }
  if rs1.ticks_since_last_check < 5 then rs1
  else
    let rs2 : RegimeState := { rs1 with ticks_since_last_check := 0 }
    match regime_walk rs2.current rand 0 (regime_transition_row rs2.current)
      with
    | some r => { rs2 with current := r, ticks_in_regime := 0 }
    | none => rs2

/-- Both macro mutations of `SimulationEngine._update_macro_variables`
applied to the market state. -/
def update_macro (ms : MarketState) (ρ : Regime) (u_rate u1 u2 u3 : ℚ) :
    MarketState :=
  { ms with interest_rate := update_interest_rate ms.interest_rate ρ u_rate,
            vix := update_vix ms.vix ρ u1 u2 u3 }

/-- State owned by `SimulationEngine` (`app/engine/simulation.py`), minus the
log ring and the cycle-analytics accumulators, which no modelled step
reaches (see `tick`). -/
structure EngineState where
  stocks : List Stock
  market : MarketState
  regime : RegimeState
  tick_count : ℕ
  time_in_phase : ℕ
  market_cap_history : List ℚ
  ticks_since_winner_check : ℕ
  ipo : IPOState

/-- `SimulationEngine._update_phase`: advance the phase clock; TRADING lasts
`TRADING_WINDOW_TICKS = 12`, CLOSED lasts `CLOSE_WINDOW_TICKS = 8`; on the
CLOSED→TRADING transition, gap pricing is applied to every active stock. -/
def update_phase (st : EngineState) (gap_rands : ℕ → ℚ × ℚ) : EngineState :=
  let t := st.time_in_phase + 1
  if st.market.phase = Phase.TRADING ∧ 12 ≤ t then
    { st with time_in_phase := 0,
              market := { st.market with phase := Phase.CLOSED } }
  else if st.market.phase = Phase.CLOSED ∧ 8 ≤ t then
    { st with time_in_phase := 0,
              market := { st.market with phase := Phase.TRADING },
              stocks := apply_gap_pricing st.stocks gap_rands }
  else { st with time_in_phase := t }

/-- The random inputs consumed by one `SimulationEngine.tick` call (steps
1-4; the call never gets further, see `tick`). -/
structure TickRand where
  gap_rands : ℕ → ℚ × ℚ
  regime_rand : ℚ
  rate_rand : ℚ
  vix_spike_rand : ℚ
  vix_mag_rand : ℚ
  vix_noise_rand : ℚ
  price_rands : ℕ → ℚ × ℚ

/-- The runtime error raised by a Python call whose argument count does not
match the callee's parameter count. -/
inductive PyError where
  | typeError
  deriving DecidableEq, Repr

/-- Number of arguments (after `self`) that `SimulationEngine.tick` passes to
`IPOManager.process`: `self.stocks`, `self.regime_manager.current_regime`,
`self.market_state` (`app/engine/simulation.py`, step 5). -/
def tick_ipo_call_arg_count : ℕ := 3

/-- Number of parameters (after `self`) that `IPOManager.process` declares:
`stocks`, `regime` (`app/engine/ipo_manager.py`). -/
def ipo_process_param_count : ℕ := 2

/-- `SimulationEngine.tick`: steps 1-4 (phase clock, regime check, macro
update, price sweep) run and mutate the state; step 5 then calls
`IPOManager.process` with three arguments although the method accepts two,
so Python raises a `TypeError`.  Steps 6-9 of the source (market-cap history
push, winner-status refresh, analytics update, tick-counter increment) sit
below the raising call and are unreachable; they are modelled by the dead
`Except.ok` branch, which is taken only if the two arity constants agree. -/
def tick (st : EngineState) (r : TickRand) : Except PyError EngineState :=
  let st1 := update_phase st r.gap_rands
  let rs2 := regime_update st1.regime r.regime_rand
  let st2 := { st1 with regime := rs2 }
  let ms3 := update_macro st2.market rs2.current r.rate_rand r.vix_spike_rand
    r.vix_mag_rand r.vix_noise_rand
  let st3 := { st2 with market := ms3 }
  let st4 := { st3 with stocks := update_all ms3 st3.stocks r.price_rands }
  if tick_ipo_call_arg_count = ipo_process_param_count then Except.ok st4
  else Except.error PyError.typeError

/-- Claim C1: `tick()` never completes.  The call-site arity (3 arguments)
differs from the callee's parameter count (2), so every `tick()` call raises
a `TypeError` at step 5 and the market-cap history push, the analytics
update and the tick-counter increment of steps 6-9 never execute. -/
theorem c1_tick_raises :
    tick_ipo_call_arg_count ≠ ipo_process_param_count
    ∧ ∀ (st : EngineState) (r : TickRand),
        tick st r = Except.error PyError.typeError :=
  ⟨by decide, fun st r => rfl⟩
